import Mathlib

/-!
Shallow embedding of the PySerialInterface repository
(src/PySerialInterface/SerialInterface.py and src/PySerialInterface/SerialRequest.py).

Modelling conventions:
* Python `bytes` values are `List Nat` (byte values 0..255).
* Decoded Python `str` text is `List Nat` (character codes); fixed string
  constants such as error tags are Lean `String`s.
* `time.time()` readings are rationals (`ℚ`), passed in explicitly wherever the
  Python code reads the clock.  Each module evaluates the dataclass field
  default `timestamp: float = time.time()` once, at class-definition (module
  load) time; that single value is the `t`/`tload` parameter threaded through
  the embedding, and every event constructed without an explicit timestamp
  carries it.
* The Python `Event` dataclass hierarchy is a closed set of record shapes; it
  is embedded as one inductive with one constructor per subclass, each
  carrying the inherited `timestamp` field.
-/

/-- A Python value stored in the dynamically typed `content` field of
`InvalidMessage`: the code stores either the raw `bytes` of the line or a
hex-dump `str`. -/
inductive PyVal where
  | bytes (bs : List Nat)
  | str (s : String)
deriving DecidableEq

/-- The `Event` dataclass hierarchy of SerialInterface.py (SerialRequest.py
declares the identical subset `Event`, `CLIResponseMessage`, `InvalidMessage`,
`EmptyMessage`).  Every subclass inherits the `timestamp` field. -/
inductive Event where
  | CLIResponseMessage (timestamp : ℚ) (content : List Nat)
  | InvalidMessage (timestamp : ℚ) (content : PyVal) (error : String)
  | EmptyMessage (timestamp : ℚ) (error : String)
  | ResponseTimeout (timestamp : ℚ) (request : String)
  | RequestHandlerTimeout (timestamp : ℚ) (request : String)
  | SerialConnected (timestamp : ℚ) (port : String)
  | SerialConnectionLost (timestamp : ℚ) (reason : String)
  | SerialNotConnected (timestamp : ℚ)
deriving DecidableEq

/-- The inherited `timestamp` field of an `Event`. -/
def Event.timestamp : Event → ℚ
  | .CLIResponseMessage t _ => t
  | .InvalidMessage t _ _ => t
  | .EmptyMessage t _ => t
  | .ResponseTimeout t _ => t
  | .RequestHandlerTimeout t _ => t
  | .SerialConnected t _ => t
  | .SerialConnectionLost t _ => t
  | .SerialNotConnected t => t

/-- Python `str` whitespace restricted to the code points that can occur here.
`str.rstrip()` / `str.lstrip()` with no argument strip Unicode whitespace; the
decoded text in this program consists of code points `< 0x80` only (ASCII
decode), for which Python whitespace is exactly 0x09-0x0d, 0x1c-0x1f, 0x20. -/
def is_py_space (c : Nat) : Bool :=
  (0x09 ≤ c && c ≤ 0x0d) || (0x1c ≤ c && c ≤ 0x20)

/-- Python `str.rstrip()` (no argument): remove trailing whitespace. -/
def rstrip (s : List Nat) : List Nat :=
  (s.reverse.dropWhile is_py_space).reverse

/-- Python `str.lstrip()` (no argument): remove leading whitespace. -/
def lstrip (s : List Nat) : List Nat :=
  s.dropWhile is_py_space

/-- Python `bytes.decode('ascii')`: succeeds exactly when every byte is
`< 0x80`, yielding the same code points as text; otherwise raises
`UnicodeDecodeError`, modelled by `none`. -/
def decode_ascii (l : List Nat) : Option (List Nat) :=
  if l.all (fun b => b < 0x80) then some l else none

/-- Lower-case hex digit, as used by Python `bytes.hex`. -/
def hex_digit (n : Nat) : Char :=
  if n < 10 then Char.ofNat (0x30 + n) else Char.ofNat (0x57 + n)

/-- Two lower-case hex digits of one byte. -/
def byte_hex (b : Nat) : String :=
  String.mk [hex_digit (b / 16 % 16), hex_digit (b % 16)]

/-- Python `bytes.hex('-')`: lower-case hex pairs joined by `-`. -/
def bytes_hex (l : List Nat) : String :=
  String.intercalate "-" (l.map byte_hex)

/-- The detail text of the `UnicodeDecodeError` interpolated into the
`"Not ASCII: {e}"` error string.  The exact text is produced by the Python
runtime; it is irrelevant here because the branch that uses it is proved
unreachable, so it is abstracted to a fixed placeholder. -/
def unicode_error_detail (l : List Nat) : String :=
  bytes_hex l

/-- The error string of the decode-failure branch, `f"Not ASCII: {e}"`. -/
def not_ascii_error (l : List Nat) : String :=
  "Not ASCII: " ++ unicode_error_detail l

namespace SerialRequest

/-- `SerialRequest.cut_line_end_characters` (SerialRequest.py lines 43-62).
Returns either the delimiter-stripped line (`Sum.inl`) or the early-returned
`InvalidMessage` (`Sum.inr`).  Python's `line[-1]` raises on an empty line;
the function is only ever called on non-empty lines (`parse_message` guards),
and `List.getLastD _ 0` is used for the last byte, which agrees with Python on
every reachable input.  `t` is the module-load timestamp used as the
dataclass default. -/
def cut_line_end_characters (t : ℚ) (line : List Nat) : List Nat ⊕ Event :=
  if line.getLastD 0 = 0x0a ∧ line.dropLast = [] then
    Sum.inr (Event.InvalidMessage t (PyVal.bytes line) "Msg only 0x0a")
  else
    let l1 := if line.getLastD 0 = 0x0a then line.dropLast else line
    if l1.getLastD 0 = 0x0d then
      if l1.dropLast = [] then
        Sum.inr (Event.InvalidMessage t (PyVal.bytes l1) "Msg only 0x0d")
      else
        let l2 := l1.dropLast
        if l2.getLastD 0 = 0x0d then
          if l2.dropLast = [] then
            Sum.inr (Event.InvalidMessage t (PyVal.bytes l2) "Msg only 0x0d")
          else
            Sum.inl l2.dropLast
        else
          Sum.inl l2
    else
      Sum.inl l1

/-- `SerialRequest.check_valid_ascii` (SerialRequest.py lines 64-70). -/
def check_valid_ascii (line : List Nat) : Bool :=
  line.all fun b => !(decide (b < 0x20) || decide (b > 0x7E))

/-- `SerialRequest.parse_message` (SerialRequest.py lines 72-104).
`t` is the module-load timestamp (the evaluated dataclass default). -/
def parse_message (t : ℚ) (line : Option (List Nat)) : Event :=
  match line with
  | none => Event.EmptyMessage t "Empty line"
  | some raw =>
    if raw.length = 0 then Event.EmptyMessage t "Empty line"
    else
      match cut_line_end_characters t raw with
      | Sum.inr msg => msg
      | Sum.inl l =>
        if check_valid_ascii l = false then
          Event.InvalidMessage t (PyVal.bytes l) "Illegal character(s)"
        else
          match decode_ascii l with
          | none => Event.InvalidMessage t (PyVal.str (bytes_hex l)) (not_ascii_error l)
          | some s =>
            let s1 := rstrip s
            if s1.length = 0 then Event.EmptyMessage t "Empty line"
            else if 1 < s1.length then Event.CLIResponseMessage t (lstrip s1)
            else Event.CLIResponseMessage t []

end SerialRequest

namespace SerialInterface

/-- `SerialInterface.cut_line_end_characters` (SerialInterface.py lines
143-162); a verbatim copy of the SerialRequest version. -/
def cut_line_end_characters (t : ℚ) (line : List Nat) : List Nat ⊕ Event :=
  if line.getLastD 0 = 0x0a ∧ line.dropLast = [] then
    Sum.inr (Event.InvalidMessage t (PyVal.bytes line) "Msg only 0x0a")
  else
    let l1 := if line.getLastD 0 = 0x0a then line.dropLast else line
    if l1.getLastD 0 = 0x0d then
      if l1.dropLast = [] then
        Sum.inr (Event.InvalidMessage t (PyVal.bytes l1) "Msg only 0x0d")
      else
        let l2 := l1.dropLast
        if l2.getLastD 0 = 0x0d then
          if l2.dropLast = [] then
            Sum.inr (Event.InvalidMessage t (PyVal.bytes l2) "Msg only 0x0d")
          else
            Sum.inl l2.dropLast
        else
          Sum.inl l2
    else
      Sum.inl l1

/-- `SerialInterface.check_valid_ascii` (SerialInterface.py lines 164-170). -/
def check_valid_ascii (line : List Nat) : Bool :=
  line.all fun b => !(decide (b < 0x20) || decide (b > 0x7E))

/-- `SerialInterface.parse_message` (SerialInterface.py lines 172-204);
a verbatim copy of the SerialRequest version. -/
def parse_message (t : ℚ) (line : Option (List Nat)) : Event :=
  match line with
  | none => Event.EmptyMessage t "Empty line"
  | some raw =>
    if raw.length = 0 then Event.EmptyMessage t "Empty line"
    else
      match cut_line_end_characters t raw with
      | Sum.inr msg => msg
      | Sum.inl l =>
        if check_valid_ascii l = false then
          Event.InvalidMessage t (PyVal.bytes l) "Illegal character(s)"
        else
          match decode_ascii l with
          | none => Event.InvalidMessage t (PyVal.str (bytes_hex l)) (not_ascii_error l)
          | some s =>
            let s1 := rstrip s
            if s1.length = 0 then Event.EmptyMessage t "Empty line"
            else if 1 < s1.length then Event.CLIResponseMessage t (lstrip s1)
            else Event.CLIResponseMessage t []

/-- Whether an `Event` is an instance of `ResponseTimeout`
(`isinstance(msg, ResponseTimeout)`). -/
def is_response_timeout : Event → Bool
  | Event.ResponseTimeout _ _ => true
  | _ => false

/-- The `Event` subclass named in the `resp_type` slot of a queued request
(Python passes the class object itself). -/
inductive EventKind where
  | CLIResponseMessage
  | InvalidMessage
  | EmptyMessage
  | ResponseTimeout
  | RequestHandlerTimeout
  | SerialConnected
  | SerialConnectionLost
  | SerialNotConnected
deriving DecidableEq

/-- One item of the request queue: the tuple
`(req, required_resp_start, resp_type, timeout, retry_cnt)` put by
`queue_request_wait_response`.  `required_resp_start` is `None`, a single
string, or a list of strings. -/
structure Request where
  req : Option String
  required_resp_start : Option (String ⊕ List String)
  resp_type : EventKind
  timeout : ℚ
  retry_cnt : Nat
deriving DecidableEq

/-- `SerialInterface.__handle_serial_request` (SerialInterface.py lines
242-267), inner retry loop for a non-`None` request, unrolled over the
remaining trials of `range(retry_cnt)`.

`wait k` is the `Event` produced by the `k`-th call (0-based, counted from the
first trial) of `__wait_for_response`; that helper reads the wall clock and the
serial port, so it is abstracted as an oracle from attempt index to outcome
(it always returns an `Event`: either a matching message or a
`ResponseTimeout`).  `has_resp_start` is `required_resp_start is not None`.
The second component of the result counts the write-then-wait attempts
performed (each iteration entered performs exactly one `write`+`flush`).
`k` is the index of the next attempt; `remaining` the trials still allowed. -/
def handle_request_go (t : ℚ) (r : String) (has_resp_start : Bool)
    (wait : Nat → Event) : Nat → Nat → Option Event × Nat
  | 0, k => (some (Event.ResponseTimeout t r), k)
  | remaining + 1, k =>
    -- serial.write(bytes(req + '\n', 'ascii')); serial.flush()
    if has_resp_start = false then (none, k + 1)
    else
      let msg := wait k
      if is_response_timeout msg then handle_request_go t r has_resp_start wait remaining (k + 1)
      else (some msg, k + 1)

/-- `SerialInterface.__handle_serial_request` (SerialInterface.py lines
242-267).  For `req = None` the function is a single `__wait_for_response`
call with no write (zero attempts); otherwise it runs the retry loop.
Returns the `Event` handed back to the dispatch loop (`none` models Python's
`return None` of the fire-and-forget branch) paired with the number of
write-then-wait attempts performed. -/
def handle_serial_request (t : ℚ) (req : Option String) (has_resp_start : Bool)
    (wait : Nat → Event) (retry_cnt : Nat) : Option Event × Nat :=
  match req with
  | none => (some (wait 0), 0)
  | some r => handle_request_go t r has_resp_start wait retry_cnt 0

/-- The fields of a `SerialInterface` shared with callers of the Façade API
that the claims mention: the `__connected` flag and the two queues (front of
the list = front of the FIFO queue). -/
structure IfaceState where
  connected : Bool
  request_queue : List Request
  response_queue : List Event
deriving DecidableEq

/-- What `queue_request_wait_response` does from the caller's point of view:
either the caller blocks on the response queue (`await_response`), or the call
returns at once with an `Event` (`ack` for the fire-and-forget acknowledgment,
`rejected` for the not-connected refusal). -/
inductive SubmitOutcome where
  | await_response
  | ack (e : Event)
  | rejected (e : Event)
deriving DecidableEq

/-- `SerialInterface.queue_request_wait_response` (SerialInterface.py lines
337-353) up to the point where the caller either has its result or starts
blocking on the response queue.  `tload` is the module-load timestamp (the
dataclass default), `tnow` the value of `time.time()` at the call. -/
def queue_request_wait_response (tload tnow : ℚ) (st : IfaceState) (r : Request) :
    SubmitOutcome × IfaceState :=
  if st.connected then
    let st1 := { st with request_queue := st.request_queue ++ [r] }
    if r.required_resp_start.isSome then
      (SubmitOutcome.await_response, st1)
    else
      (SubmitOutcome.ack (Event.CLIResponseMessage tload []), st1)
  else
    (SubmitOutcome.rejected (Event.SerialNotConnected tnow), st)

/-- The connection-related fields that `SerialInterface.__connect` writes. -/
structure ConnState where
  connected : Bool
  serial : Option String
  is_force_reconnect_requested : Bool
deriving DecidableEq

/-- `SerialInterface.__connect` (SerialInterface.py lines 117-137).
`opens p = true` models `Serial(port=p, ...)` succeeding, `false` models it
raising `SerialException` (the transport is an external collaborator).
Result: the returned `bool`, the fields written (note `__connected` is left
`False` by `__connect` itself; `run` sets it afterwards), the events emitted,
and the list of ports passed to `Serial(...)`, in order. -/
def connect (t : ℚ) (opens : String → Bool) :
    List String → Bool × ConnState × List Event × List String
  | [] => (false, ⟨false, none, false⟩, [], [])
  | p :: ps =>
    if opens p then
      (true, ⟨false, some p, false⟩, [Event.SerialConnected t p], [p])
    else
      match connect t opens ps with
      | (ok, st, evs, tried) => (ok, st, evs, p :: tried)

/-- The queue-drain loop of `SerialInterface.run` (SerialInterface.py lines
327-334), run while disconnected: repeatedly dequeue a request and put a
`SerialNotConnected` on the response queue.  `times k` is the `time.time()`
reading of the `k`-th drained request. -/
def drain_requests (times : Nat → ℚ) (k : Nat) :
    List Request → List Event → List Request × List Event
  | [], respq => ([], respq)
  | _ :: rest, respq =>
    drain_requests times (k + 1) rest (respq ++ [Event.SerialNotConnected (times k)])

/-- Models the Python dataclass field-default semantics of
`timestamp: float = time.time()` (SerialInterface.py line 19,
SerialRequest.py line 12): the default expression is evaluated once, when the
class body executes at module load time (`tload`); constructing an instance
without an explicit `timestamp` argument at a later time `tnow` stores the
saved default, ignoring the construction-time clock. -/
def default_timestamp_of_construction (tload : ℚ) (tnow : ℚ) : ℚ :=
  tload

end SerialInterface

/-- Whether an `Event` is an `InvalidMessage` whose error text starts with
`"Not ASCII"`, i.e. a result of the ASCII-decode-failure branch of
`parse_message`. -/
def is_not_ascii_invalid : Event → Bool
  | Event.InvalidMessage _ _ err => List.isPrefixOf "Not ASCII".toList err.toList
  | _ => false

/-! ### Helper lemmas -/

lemma check_valid_ascii_eq_true_iff (l : List Nat) :
    SerialInterface.check_valid_ascii l = true ↔ ∀ b ∈ l, 0x20 ≤ b ∧ b ≤ 0x7E := by
  simp [SerialInterface.check_valid_ascii, List.all_eq_true, not_lt]

lemma check_valid_ascii_eq_false_iff (l : List Nat) :
    SerialInterface.check_valid_ascii l = false ↔ ∃ b ∈ l, b < 0x20 ∨ 0x7E < b := by
  rw [← Bool.not_eq_true, check_valid_ascii_eq_true_iff]
  push_neg
  constructor
  · rintro ⟨b, hb, h⟩
    exact ⟨b, hb, by omega⟩
  · rintro ⟨b, hb, h⟩
    exact ⟨b, hb, by omega⟩

lemma decode_ascii_of_check (l : List Nat)
    (h : SerialInterface.check_valid_ascii l = true) : decode_ascii l = some l := by
  rw [check_valid_ascii_eq_true_iff] at h
  have : l.all (fun b => b < 0x80) = true := by
    rw [List.all_eq_true]
    intro b hb
    have := h b hb
    simp only [decide_eq_true_eq]
    omega
  simp [decode_ascii, this]

/-- Every early return of `cut_line_end_characters` is an `InvalidMessage`
with the module-load timestamp, a non-empty byte content ending in the
delimiter named by its error string. -/
lemma cut_inr_shape (t : ℚ) (raw : List Nat) (e : Event)
    (h : SerialInterface.cut_line_end_characters t raw = Sum.inr e) :
    ∃ c : List Nat, c ≠ [] ∧
      ((e = Event.InvalidMessage t (PyVal.bytes c) "Msg only 0x0a" ∧ c.getLastD 0 = 0x0a) ∨
       (e = Event.InvalidMessage t (PyVal.bytes c) "Msg only 0x0d" ∧ c.getLastD 0 = 0x0d)) := by
  simp only [SerialInterface.cut_line_end_characters] at h
  by_cases h1 : raw.getLastD 0 = 0x0a ∧ raw.dropLast = []
  · rw [if_pos h1] at h
    injection h with h
    subst h
    refine ⟨raw, ?_, Or.inl ⟨rfl, h1.1⟩⟩
    rintro rfl
    simp at h1
  · rw [if_neg h1] at h
    generalize (if raw.getLastD 0 = 0x0a then raw.dropLast else raw) = l1 at h
    by_cases h2 : l1.getLastD 0 = 0x0d
    · rw [if_pos h2] at h
      by_cases h3 : l1.dropLast = []
      · rw [if_pos h3] at h
        injection h with h
        subst h
        refine ⟨l1, ?_, Or.inr ⟨rfl, h2⟩⟩
        rintro rfl
        simp at h2
      · rw [if_neg h3] at h
        by_cases h4 : l1.dropLast.getLastD 0 = 0x0d
        · rw [if_pos h4] at h
          by_cases h5 : l1.dropLast.dropLast = []
          · rw [if_pos h5] at h
            injection h with h
            subst h
            exact ⟨l1.dropLast, h3, Or.inr ⟨rfl, h4⟩⟩
          · rw [if_neg h5] at h
            simp at h
        · rw [if_neg h4] at h
          simp at h
    · rw [if_neg h2] at h
      simp at h

lemma cut_inr_timestamp (t : ℚ) (raw : List Nat) (e : Event)
    (h : SerialInterface.cut_line_end_characters t raw = Sum.inr e) :
    e.timestamp = t := by
  obtain ⟨c, -, hc | hc⟩ := cut_inr_shape t raw e h <;> rw [hc.1] <;> rfl

lemma parse_message_of_cut_inr (t : ℚ) (raw : List Nat) (e : Event)
    (hraw : raw ≠ []) (hcut : SerialInterface.cut_line_end_characters t raw = Sum.inr e) :
    SerialInterface.parse_message t (some raw) = e := by
  have hlen : ¬ raw.length = 0 := by simpa [List.length_eq_zero] using hraw
  simp [SerialInterface.parse_message, hlen, hcut]

lemma parse_message_text_stage (t : ℚ) (raw l : List Nat)
    (hraw : raw ≠ []) (hcut : SerialInterface.cut_line_end_characters t raw = Sum.inl l)
    (hok : SerialInterface.check_valid_ascii l = true) :
    SerialInterface.parse_message t (some raw) =
      (if (rstrip l).length = 0 then Event.EmptyMessage t "Empty line"
       else if 1 < (rstrip l).length then Event.CLIResponseMessage t (lstrip (rstrip l))
       else Event.CLIResponseMessage t []) := by
  have hlen : ¬ raw.length = 0 := by simpa [List.length_eq_zero] using hraw
  have hdec := decode_ascii_of_check l hok
  simp [SerialInterface.parse_message, hlen, hcut, hok, hdec]

lemma parse_message_copies_eq :
    @SerialRequest.parse_message = @SerialInterface.parse_message := rfl

/-! ### Claim C1: content of a successfully parsed line -/

/-- Claim C1, counterexample.  The claim states that for a line whose decoded,
trailing-whitespace-trimmed text has length greater than 1, `parse_message`
returns content equal to that text with its first character removed.  On
`b"OK\r\n"` the trimmed text is `"OK"` (length 2), so the claim demands
content `"K"` (`[0x4b]`); the code returns the full text `"OK"`
(`[0x4f, 0x4b]`), because it removes leading whitespace, not a leading
character. -/
theorem parse_first_char_removed_counterexample :
    SerialInterface.cut_line_end_characters 0 [0x4f, 0x4b, 0x0d, 0x0a] =
      Sum.inl [0x4f, 0x4b] ∧
    1 < (rstrip [0x4f, 0x4b]).length ∧
    SerialInterface.parse_message 0 (some [0x4f, 0x4b, 0x0d, 0x0a]) =
      Event.CLIResponseMessage 0 [0x4f, 0x4b] ∧
    SerialInterface.parse_message 0 (some [0x4f, 0x4b, 0x0d, 0x0a]) ≠
      Event.CLIResponseMessage 0 ((rstrip [0x4f, 0x4b]).drop 1) := by
  decide

/-- Claim C1, amended.  For every inbound line that reaches the text stage
(delimiter stripping returns a line, the ASCII range check passes): if the
decoded, trailing-whitespace-trimmed text has length greater than 1,
`parse_message` returns a `CLIResponseMessage` whose content is that text with
leading whitespace removed (`lstrip`, not first-character removal); if the
trimmed text has length exactly 1, the content is empty. -/
theorem parse_long_line_content_is_lstrip (t : ℚ) (raw l : List Nat)
    (hraw : raw ≠ [])
    (hcut : SerialInterface.cut_line_end_characters t raw = Sum.inl l)
    (hok : SerialInterface.check_valid_ascii l = true) :
    (1 < (rstrip l).length →
      SerialInterface.parse_message t (some raw) =
        Event.CLIResponseMessage t (lstrip (rstrip l))) ∧
    ((rstrip l).length = 1 →
      SerialInterface.parse_message t (some raw) = Event.CLIResponseMessage t []) := by
  rw [parse_message_text_stage t raw l hraw hcut hok]
  constructor
  · intro hgt
    rw [if_neg (by omega), if_pos hgt]
  · intro h1
    rw [if_neg (by omega), if_neg (by omega)]

/-- Witness for `parse_long_line_content_is_lstrip` at `b"AB\n"`. -/
theorem parse_long_line_content_is_lstrip_witness :
    SerialInterface.parse_message 0 (some [0x41, 0x42, 0x0a]) =
      Event.CLIResponseMessage 0 (lstrip (rstrip [0x41, 0x42])) :=
  (parse_long_line_content_is_lstrip 0 [0x41, 0x42, 0x0a] [0x41, 0x42]
    (by decide) (by decide) (by decide)).1 (by decide)

/-! ### Claim C2: illegal-character detection -/

/-- Claim C2, counterexample.  The claim states that a byte outside
`[0x20, 0x7E]` anywhere in the pre-strip line forces an "Illegal character(s)"
`InvalidMessage` carrying the entire pre-strip line.  The pre-strip line
`b"AB\n"` contains `0x0a`, which is outside `[0x20, 0x7E]`, yet `parse_message`
returns a successful `CLIResponseMessage`: the check runs only on the
delimiter-stripped line. -/
theorem illegal_char_prestrip_counterexample :
    (0x0a ∈ ([0x41, 0x42, 0x0a] : List Nat) ∧ (0x0a < 0x20 ∨ 0x7E < 0x0a)) ∧
    SerialInterface.parse_message 0 (some [0x41, 0x42, 0x0a]) =
      Event.CLIResponseMessage 0 [0x41, 0x42] := by
  decide

/-- Claim C2, amended.  For every non-empty input line, if the
delimiter-stripped line contains any byte outside the printable ASCII range
`[0x20, 0x7E]`, `parse_message` returns an `InvalidMessage` with reason
"Illegal character(s)" carrying the entire post-strip line. -/
theorem parse_illegal_char_poststrip (t : ℚ) (raw l : List Nat)
    (hraw : raw ≠ [])
    (hcut : SerialInterface.cut_line_end_characters t raw = Sum.inl l)
    (hbad : ∃ b ∈ l, b < 0x20 ∨ 0x7E < b) :
    SerialInterface.parse_message t (some raw) =
      Event.InvalidMessage t (PyVal.bytes l) "Illegal character(s)" := by
  have hlen : ¬ raw.length = 0 := by simpa [List.length_eq_zero] using hraw
  have hchk : SerialInterface.check_valid_ascii l = false :=
    (check_valid_ascii_eq_false_iff l).mpr hbad
  simp [SerialInterface.parse_message, hlen, hcut, hchk]

/-- Witness for `parse_illegal_char_poststrip` at `b"\x01\n"`. -/
theorem parse_illegal_char_poststrip_witness :
    SerialInterface.parse_message 0 (some [0x01, 0x0a]) =
      Event.InvalidMessage 0 (PyVal.bytes [0x01]) "Illegal character(s)" :=
  parse_illegal_char_poststrip 0 [0x01, 0x0a] [0x01] (by decide) (by decide)
    ⟨0x01, by decide, by decide⟩

/-! ### Claim C5: delimiter-only lines -/

/-- Claim C5: `parse(b"\n")` yields `InvalidMessage` with reason
"Msg only 0x0a"; `parse(b"\r")` yields `InvalidMessage` with reason
"Msg only 0x0d"; `parse(b"\r\r")` reduces to exactly the same CR-only invalid
event; and in general, whenever delimiter stripping empties the line (the
early `InvalidMessage` return of `cut_line_end_characters`), `parse_message`
returns that `InvalidMessage`, whose error names the delimiter (also the last
byte of the reported content) that caused the emptiness. -/
theorem parse_delimiter_only_lines (t : ℚ) :
    SerialInterface.parse_message t (some [0x0a]) =
      Event.InvalidMessage t (PyVal.bytes [0x0a]) "Msg only 0x0a" ∧
    SerialInterface.parse_message t (some [0x0d]) =
      Event.InvalidMessage t (PyVal.bytes [0x0d]) "Msg only 0x0d" ∧
    SerialInterface.parse_message t (some [0x0d, 0x0d]) =
      SerialInterface.parse_message t (some [0x0d]) ∧
    ∀ raw e, raw ≠ [] →
      SerialInterface.cut_line_end_characters t raw = Sum.inr e →
      SerialInterface.parse_message t (some raw) = e ∧
      ∃ c : List Nat, c ≠ [] ∧
        ((e = Event.InvalidMessage t (PyVal.bytes c) "Msg only 0x0a" ∧ c.getLastD 0 = 0x0a) ∨
         (e = Event.InvalidMessage t (PyVal.bytes c) "Msg only 0x0d" ∧ c.getLastD 0 = 0x0d)) := by
  refine ⟨rfl, rfl, rfl, ?_⟩
  intro raw e hraw hcut
  exact ⟨parse_message_of_cut_inr t raw e hraw hcut, cut_inr_shape t raw e hcut⟩

/-- Witness for `parse_delimiter_only_lines` at `t = 0` and, for the general
conjunct, at the input `b"\r\n"`. -/
theorem parse_delimiter_only_lines_witness :
    SerialInterface.parse_message 0 (some [0x0d, 0x0a]) =
      Event.InvalidMessage 0 (PyVal.bytes [0x0d]) "Msg only 0x0d" ∧
    ∃ c : List Nat, c ≠ [] ∧
      ((Event.InvalidMessage 0 (PyVal.bytes [0x0d]) "Msg only 0x0d" =
          Event.InvalidMessage 0 (PyVal.bytes c) "Msg only 0x0a" ∧ c.getLastD 0 = 0x0a) ∨
       (Event.InvalidMessage 0 (PyVal.bytes [0x0d]) "Msg only 0x0d" =
          Event.InvalidMessage 0 (PyVal.bytes c) "Msg only 0x0d" ∧ c.getLastD 0 = 0x0d)) :=
  (parse_delimiter_only_lines 0).2.2.2 [0x0d, 0x0a]
    (Event.InvalidMessage 0 (PyVal.bytes [0x0d]) "Msg only 0x0d") (by decide) (by decide)

/-- Every output of `parse_message` is an `EmptyMessage`, a
`CLIResponseMessage`, or an `InvalidMessage` carrying raw bytes and one of the
three in-range error tags — always with the module-load timestamp `t`. -/
lemma parse_message_cases (t : ℚ) (line : Option (List Nat)) :
    (∃ err, SerialInterface.parse_message t line = Event.EmptyMessage t err) ∨
    (∃ c, SerialInterface.parse_message t line = Event.CLIResponseMessage t c) ∨
    (∃ bs err, SerialInterface.parse_message t line =
        Event.InvalidMessage t (PyVal.bytes bs) err ∧
      (err = "Msg only 0x0a" ∨ err = "Msg only 0x0d" ∨ err = "Illegal character(s)")) := by
  match line with
  | none => exact Or.inl ⟨"Empty line", rfl⟩
  | some raw =>
    by_cases hlen : raw.length = 0
    · exact Or.inl ⟨"Empty line", by simp [SerialInterface.parse_message, hlen]⟩
    · rcases hcut : SerialInterface.cut_line_end_characters t raw with l | e
      · by_cases hchk : SerialInterface.check_valid_ascii l = false
        · refine Or.inr (Or.inr ⟨l, "Illegal character(s)", ?_, Or.inr (Or.inr rfl)⟩)
          simp [SerialInterface.parse_message, hlen, hcut, hchk]
        · have hok : SerialInterface.check_valid_ascii l = true := by
            simpa using hchk
          rw [parse_message_text_stage t raw l (by simpa [List.length_eq_zero] using hlen)
            hcut hok]
          by_cases h0 : (rstrip l).length = 0
          · rw [if_pos h0]
            exact Or.inl ⟨"Empty line", rfl⟩
          · rw [if_neg h0]
            by_cases h1 : 1 < (rstrip l).length
            · rw [if_pos h1]
              exact Or.inr (Or.inl ⟨lstrip (rstrip l), rfl⟩)
            · rw [if_neg h1]
              exact Or.inr (Or.inl ⟨[], rfl⟩)
      · have hpe := parse_message_of_cut_inr t raw e
          (by simpa [List.length_eq_zero] using hlen) hcut
        obtain ⟨c, -, ⟨he, -⟩ | ⟨he, -⟩⟩ := cut_inr_shape t raw e hcut
        · exact Or.inr (Or.inr ⟨c, "Msg only 0x0a", by rw [hpe, he], Or.inl rfl⟩)
        · exact Or.inr (Or.inr ⟨c, "Msg only 0x0d", by rw [hpe, he], Or.inr (Or.inl rfl)⟩)

/-! ### Claim C8: the two parser copies are the same function -/

/-- Claim C8: for every module-load timestamp and every input (`None` or any
byte sequence), `SerialRequest.parse_message` and
`SerialInterface.parse_message` return equal `Event`s, and the helper pairs
`cut_line_end_characters` and `check_valid_ascii` agree as well: the two
copies of the parser are extensionally identical functions. -/
theorem parser_copies_extensionally_equal :
    (∀ (t : ℚ) (line : Option (List Nat)),
      SerialRequest.parse_message t line = SerialInterface.parse_message t line) ∧
    (∀ (t : ℚ) (l : List Nat),
      SerialRequest.cut_line_end_characters t l = SerialInterface.cut_line_end_characters t l) ∧
    (∀ l : List Nat,
      SerialRequest.check_valid_ascii l = SerialInterface.check_valid_ascii l) :=
  ⟨fun _ _ => rfl, fun _ _ => rfl, fun _ => rfl⟩

/-! ### Claim C9: the decode-failure branch is unreachable -/

/-- Claim C9: whenever `check_valid_ascii` returns `True` the subsequent
ASCII decode succeeds (returning the same code points), and consequently
neither copy of `parse_message` ever returns an `InvalidMessage` whose error
starts with "Not ASCII". -/
theorem not_ascii_branch_unreachable :
    (∀ l : List Nat,
      SerialInterface.check_valid_ascii l = true → decode_ascii l = some l) ∧
    (∀ (t : ℚ) (line : Option (List Nat)),
      is_not_ascii_invalid (SerialInterface.parse_message t line) = false) ∧
    (∀ (t : ℚ) (line : Option (List Nat)),
      is_not_ascii_invalid (SerialRequest.parse_message t line) = false) := by
  have key : ∀ (t : ℚ) (line : Option (List Nat)),
      is_not_ascii_invalid (SerialInterface.parse_message t line) = false := by
    intro t line
    rcases parse_message_cases t line with ⟨err, h⟩ | ⟨c, h⟩ | ⟨bs, err, h, herr⟩ <;> rw [h]
    · rfl
    · rfl
    · rcases herr with rfl | rfl | rfl <;>
        simp only [is_not_ascii_invalid] <;> decide
  refine ⟨decode_ascii_of_check, key, ?_⟩
  intro t line
  rw [parse_message_copies_eq]
  exact key t line

/-- Witness for `not_ascii_branch_unreachable`: the decode-success conjunct
discharged at the concrete line `b"A"`. -/
theorem not_ascii_branch_unreachable_witness :
    decode_ascii [0x41] = some [0x41] ∧
    is_not_ascii_invalid (SerialInterface.parse_message 0 (some [0x41, 0x0a])) = false :=
  ⟨not_ascii_branch_unreachable.1 [0x41] (by decide),
   not_ascii_branch_unreachable.2.1 0 (some [0x41, 0x0a])⟩

/-! ### Claim C10: the timestamp default is evaluated once -/

/-- Claim C10: the dataclass default `timestamp: float = time.time()` is
evaluated once at class-definition (module load) time, so an `Event`
constructed without an explicit timestamp at any construction time carries the
module-load timestamp; in particular every `Event` returned by either copy of
`parse_message` has timestamp equal to the module-load time, and two such
events obtained from parses at different times have equal timestamps. -/
theorem event_timestamp_is_class_default :
    (∀ tload t1 t2 : ℚ, SerialInterface.default_timestamp_of_construction tload t1 =
        SerialInterface.default_timestamp_of_construction tload t2) ∧
    (∀ (t : ℚ) (line : Option (List Nat)),
      (SerialInterface.parse_message t line).timestamp = t) ∧
    (∀ (t : ℚ) (line : Option (List Nat)),
      (SerialRequest.parse_message t line).timestamp = t) ∧
    (∀ (t : ℚ) (l1 l2 : Option (List Nat)),
      (SerialInterface.parse_message t l1).timestamp =
        (SerialInterface.parse_message t l2).timestamp) := by
  have key : ∀ (t : ℚ) (line : Option (List Nat)),
      (SerialInterface.parse_message t line).timestamp = t := by
    intro t line
    rcases parse_message_cases t line with ⟨err, h⟩ | ⟨c, h⟩ | ⟨bs, err, h, -⟩ <;> rw [h] <;> rfl
  refine ⟨fun _ _ _ => rfl, key, ?_, fun t l1 l2 => by rw [key, key]⟩
  intro t line
  rw [parse_message_copies_eq]
  exact key t line
/-! ### Claim C3: retry exhaustion of the correlator -/

lemma handle_request_go_timeout (t : ℚ) (r : String) (wait : Nat → Event) :
    ∀ n k, (∀ j, j < k + n → SerialInterface.is_response_timeout (wait j) = true) →
      SerialInterface.handle_request_go t r true wait n k =
        (some (Event.ResponseTimeout t r), k + n) := by
  intro n
  induction n with
  | zero => intro k _; rfl
  | succ n ih =>
    intro k h
    have hstep : SerialInterface.handle_request_go t r true wait (n + 1) k =
        if SerialInterface.is_response_timeout (wait k) = true then
          SerialInterface.handle_request_go t r true wait n (k + 1)
        else (some (wait k), k + 1) := rfl
    have hk : SerialInterface.is_response_timeout (wait k) = true := h k (by omega)
    rw [hstep, if_pos hk, ih (k + 1) (fun j hj => h j (by omega))]
    have harith : k + 1 + n = k + (n + 1) := by omega
    rw [harith]

lemma handle_request_go_stops (t : ℚ) (r : String) (wait : Nat → Event) :
    ∀ n k m, k ≤ m → m < k + n →
      (∀ j, k ≤ j → j < m → SerialInterface.is_response_timeout (wait j) = true) →
      SerialInterface.is_response_timeout (wait m) = false →
      SerialInterface.handle_request_go t r true wait n k = (some (wait m), m + 1) := by
  intro n
  induction n with
  | zero => intro k m h1 h2 _ _; omega
  | succ n ih =>
    intro k m hkm hlt h hm
    have hstep : SerialInterface.handle_request_go t r true wait (n + 1) k =
        if SerialInterface.is_response_timeout (wait k) = true then
          SerialInterface.handle_request_go t r true wait n (k + 1)
        else (some (wait k), k + 1) := rfl
    by_cases hk : k = m
    · subst hk
      rw [hstep, if_neg (by simp [hm])]
    · have hto : SerialInterface.is_response_timeout (wait k) = true :=
        h k le_rfl (by omega)
      rw [hstep, if_pos hto]
      exact ih (k + 1) m (by omega) (by omega) (fun j hj hj2 => h j (by omega) hj2) hm

/-- Claim C3: for a request with an outbound payload and a required response
prefix, if every per-attempt wait ends in a `ResponseTimeout` then
`__handle_serial_request` performs exactly `retry_cnt` write-then-wait
attempts and returns `ResponseTimeout` whose `request` field is the outbound
payload; and a first non-timeout wait at attempt `m` ends the loop
immediately, with `m + 1` attempts performed and that event returned. -/
theorem handle_serial_request_retry_policy (t : ℚ) (req : String)
    (wait : Nat → Event) (retry_cnt : Nat) :
    ((∀ k, k < retry_cnt → SerialInterface.is_response_timeout (wait k) = true) →
      SerialInterface.handle_serial_request t (some req) true wait retry_cnt =
        (some (Event.ResponseTimeout t req), retry_cnt)) ∧
    (∀ m, m < retry_cnt →
      (∀ k, k < m → SerialInterface.is_response_timeout (wait k) = true) →
      SerialInterface.is_response_timeout (wait m) = false →
      SerialInterface.handle_serial_request t (some req) true wait retry_cnt =
        (some (wait m), m + 1)) := by
  constructor
  · intro h
    have hgo := handle_request_go_timeout t req wait retry_cnt 0 (fun j hj => h j (by omega))
    simpa [SerialInterface.handle_serial_request] using hgo
  · intro m hm h1 h2
    have hgo := handle_request_go_stops t req wait retry_cnt 0 m (Nat.zero_le m) (by omega)
      (fun j _ hj => h1 j hj) h2
    simpa [SerialInterface.handle_serial_request] using hgo

/-- Witness for `handle_serial_request_retry_policy`: three attempts that all
time out yield `ResponseTimeout(request="AT")` after exactly 3 attempts. -/
theorem handle_serial_request_retry_policy_witness :
    SerialInterface.handle_serial_request 0 (some "AT") true
        (fun _ => Event.ResponseTimeout 0 "") 3 =
      (some (Event.ResponseTimeout 0 "AT"), 3) :=
  (handle_serial_request_retry_policy 0 "AT" (fun _ => Event.ResponseTimeout 0 "") 3).1
    (fun _ _ => rfl)

/-! ### Claim C4: submission while disconnected -/

/-- Claim C4: whenever the interface is not connected,
`queue_request_wait_response` immediately returns the not-connected event
`SerialNotConnected` (stamped with the call-time clock) without blocking
(outcome `rejected`, never `await_response`), and leaves the interface state —
in particular the request queue — unchanged: the request is never enqueued. -/
theorem queue_request_not_connected (tload tnow : ℚ)
    (st : SerialInterface.IfaceState) (r : SerialInterface.Request)
    (h : st.connected = false) :
    SerialInterface.queue_request_wait_response tload tnow st r =
      (SerialInterface.SubmitOutcome.rejected (Event.SerialNotConnected tnow), st) := by
  simp [SerialInterface.queue_request_wait_response, h]

/-- Witness for `queue_request_not_connected` at a concrete disconnected
state. -/
theorem queue_request_not_connected_witness :
    SerialInterface.queue_request_wait_response 0 1
        ⟨false, [], []⟩
        ⟨some "AT", some (Sum.inl "OK"), SerialInterface.EventKind.CLIResponseMessage, 2, 1⟩ =
      (SerialInterface.SubmitOutcome.rejected (Event.SerialNotConnected 1),
        ⟨false, [], []⟩) :=
  queue_request_not_connected 0 1 ⟨false, [], []⟩
    ⟨some "AT", some (Sum.inl "OK"), SerialInterface.EventKind.CLIResponseMessage, 2, 1⟩ rfl

/-! ### Claim C6: ordered connect attempts -/

/-- Claim C6: `__connect` tries the candidate port list strictly in order.  If
every port before `p` fails to open and `p` opens, the connect succeeds with
serial handle `p`, emits exactly one `SerialConnected` event for `p`, and the
ports tried are exactly the prefix up to and including `p` — none of the
remaining candidates is tried.  If no candidate opens, the call returns
failure, the state keeps `connected = false` and no serial handle, no event is
emitted, and every candidate was tried. -/
theorem connect_first_endpoint_wins (t : ℚ) (opens : String → Bool) :
    (∀ pre p post, (∀ q ∈ pre, opens q = false) → opens p = true →
      SerialInterface.connect t opens (pre ++ p :: post) =
        (true, ⟨false, some p, false⟩, [Event.SerialConnected t p], pre ++ [p])) ∧
    (∀ ports, (∀ q ∈ ports, opens q = false) →
      SerialInterface.connect t opens ports =
        (false, ⟨false, none, false⟩, [], ports)) := by
  constructor
  · intro pre
    induction pre with
    | nil =>
      intro p post _ hp
      simp [SerialInterface.connect, hp]
    | cons q pre ih =>
      intro p post hpre hp
      have hq : opens q = false := hpre q (List.mem_cons_self q pre)
      have hrec := ih p post (fun x hx => hpre x (List.mem_cons_of_mem q hx)) hp
      simp [SerialInterface.connect, hq, hrec]
  · intro ports
    induction ports with
    | nil => intro _; rfl
    | cons q ports ih =>
      intro h
      have hq : opens q = false := h q (List.mem_cons_self q ports)
      have hrec := ih (fun x hx => h x (List.mem_cons_of_mem q hx))
      simp [SerialInterface.connect, hq, hrec]

/-- Witness for `connect_first_endpoint_wins`: with COM1 failing and COM2
opening, the scan stops at COM2 and COM3 is never tried. -/
theorem connect_first_endpoint_wins_witness :
    SerialInterface.connect 0 (fun s => s == "COM2") ["COM1", "COM2", "COM3"] =
      (true, ⟨false, some "COM2", false⟩, [Event.SerialConnected 0 "COM2"],
        ["COM1", "COM2"]) :=
  (connect_first_endpoint_wins 0 (fun s => s == "COM2")).1 ["COM1"] "COM2" ["COM3"]
    (by decide) (by decide)

/-! ### Claim C7: draining queued requests while disconnected -/

/-- Claim C7: while the worker is disconnected, the drain loop of `run`
dequeues every request in the request queue and appends one terminal
`SerialNotConnected` event per request to the response queue (stamped with
each iteration's clock reading): the request queue ends empty and no request
is dropped or left unresolved. -/
theorem drain_resolves_every_request (times : Nat → ℚ) :
    ∀ (reqs : List SerialInterface.Request) (k : Nat) (respq : List Event),
      SerialInterface.drain_requests times k reqs respq =
        ([], respq ++ (List.range reqs.length).map
          fun i => Event.SerialNotConnected (times (k + i))) := by
  intro reqs
  induction reqs with
  | nil => intro k respq; simp [SerialInterface.drain_requests]
  | cons r rest ih =>
    intro k respq
    have hsplit : (List.range (r :: rest).length).map
          (fun i => Event.SerialNotConnected (times (k + i))) =
        Event.SerialNotConnected (times k) ::
          (List.range rest.length).map
            (fun i => Event.SerialNotConnected (times (k + 1 + i))) := by
      rw [List.length_cons, List.range_succ_eq_map, List.map_cons, List.map_map]
      congr 1
      apply List.map_congr_left
      intro i _
      simp only [Function.comp_apply]
      congr 2
      omega
    rw [SerialInterface.drain_requests, ih (k + 1), hsplit]
    simp
